import Mathlib

/-!
Shallow embedding of the two command-line programs of this repository,
`batch/batch.py` (batch chat-completion driver) and
`data_sources/data_sources.py` (retrieval-augmented chat requester),
together with proofs about the embedded operations.

Remote services (file store, batch service, chat service) are modelled as
oracles passed in as functions; `time.sleep` and `print` are modelled as
events in a trace.  Machine-level concerns (real time, network) are out of
scope; the control flow, string tests and data selection of the Python code
are translated faithfully.
-/

/-! ## Python string primitives

Character-level models of the Python `str` operations the scripts use.
All are structurally recursive so that concrete inputs evaluate by `rfl`.
-/

/-- Model of Python list/str prefix test: does `needle` occur at the head of
`haystack`? -/
def charsStartWith : List Char → List Char → Bool
  | [], _ => true
  | _ :: _, [] => false
  | a :: as, b :: bs => a = b && charsStartWith as bs

/-- Model of the Python substring test `needle in haystack` on strings:
`true` iff `needle` occurs contiguously inside `haystack` (the empty string
occurs in every string, as in Python). -/
def charsContains : List Char → List Char → Bool
  | needle, [] => needle.isEmpty
  | needle, c :: rest => charsStartWith needle (c :: rest) || charsContains needle rest

/-- Model of the Python expression `needle in haystack` for strings.
This is the semantics of `status not in ("processed")` in `batch.py` line 87:
`("processed")` is a parenthesised *string*, not a tuple, so Python performs a
substring test. -/
def pyStrIn (needle haystack : String) : Bool :=
  charsContains needle.data haystack.data

/-- Characters treated as whitespace by Python `str.strip()` (the ASCII ones
occurring in this repository's data). -/
def isPyWs (c : Char) : Bool :=
  c = ' ' || c = '\t' || c = '\n' || c = '\r'

/-- Drop leading whitespace from a character list. -/
def dropWsLeft : List Char → List Char
  | [] => []
  | c :: cs => if isPyWs c then dropWsLeft cs else c :: cs

/-- Model of Python `str.strip()`: remove whitespace from both ends. -/
def pyStrip (s : String) : String :=
  String.mk ((dropWsLeft ((dropWsLeft s.data).reverse)).reverse)

/-- Split a character list at every occurrence of the separator character. -/
def splitOnChar (sep : Char) : List Char → List (List Char)
  | [] => [[]]
  | a :: as =>
    let r := splitOnChar sep as
    if a = sep then [] :: r
    else
      match r with
      | [] => [[a]]
      | g :: gs => (a :: g) :: gs

/-- Model of Python `str.split('\n')` as used in `batch.py` line 123. -/
def pySplitNewline (s : String) : List String :=
  (splitOnChar '\n' s.data).map String.mk

/-! ## JSON values

Modelled from the Python `json` standard library as used by `batch.py`
(`json.loads` on each line of the retrieved result file, then
`json.dumps(..., indent=2)`).  Numbers are restricted to integers and
strings to characters without `\u` escapes, the fragment exercised by the
newline-delimited records of this repository.  Array elements and object
members are encoded as mutually defined lists so that all functions on
values are structurally recursive. -/
mutual

inductive Json where
  | null
  | bool (b : Bool)
  | num (n : Int)
  | str (s : String)
  | arr (xs : JsonItems)
  | obj (kvs : JsonMembers)

inductive JsonItems where
  | nil
  | cons (hd : Json) (tl : JsonItems)

inductive JsonMembers where
  | nil
  | cons (k : String) (v : Json) (tl : JsonMembers)

end

/-! ### Parser (model of `json.loads`) -/

/-- Skip JSON insignificant whitespace. -/
def skipWs : List Char → List Char
  | [] => []
  | c :: cs => if isPyWs c then skipWs cs else c :: cs

/-- Decode a single character following a backslash in a JSON string. -/
def escDecode (c : Char) : Option Char :=
  if c = '"' then some '"'
  else if c = '\\' then some '\\'
  else if c = '/' then some '/'
  else if c = 'n' then some '\n'
  else if c = 't' then some '\t'
  else if c = 'r' then some '\r'
  else if c = 'b' then some (Char.ofNat 8)
  else if c = 'f' then some (Char.ofNat 12)
  else none

/-- Parse the body of a JSON string (after the opening quote), returning the
decoded characters and the remainder after the closing quote. -/
def parseStrBody : List Char → Option (List Char × List Char)
  | [] => none
  | '"' :: rest => some ([], rest)
  | '\\' :: e :: rest =>
    match escDecode e, parseStrBody rest with
    | some c, some (acc, r) => some (c :: acc, r)
    | _, _ => none
  | c :: rest =>
    match parseStrBody rest with
    | some (acc, r) => some (c :: acc, r)
    | none => none

/-- Take a maximal run of decimal digits. -/
def takeDigits : List Char → List Char × List Char
  | [] => ([], [])
  | c :: cs =>
    if c.isDigit then
      let (d, r) := takeDigits cs
      (c :: d, r)
    else ([], c :: cs)

/-- Numeric value of a digit run. -/
def digitsToNat (ds : List Char) : Nat :=
  ds.foldl (fun a c => a * 10 + (c.toNat - 48)) 0

/-- Parse a JSON integer literal. -/
def parseNum (cs : List Char) : Option (Json × List Char) :=
  match cs with
  | '-' :: rest =>
    let (ds, r) := takeDigits rest
    if ds.isEmpty then none else some (Json.num (-(digitsToNat ds : Int)), r)
  | _ =>
    let (ds, r) := takeDigits cs
    if ds.isEmpty then none else some (Json.num (digitsToNat ds), r)

mutual

/-- Parse one JSON value; `fuel` bounds the recursion depth. -/
def parseVal : Nat → List Char → Option (Json × List Char)
  | 0, _ => none
  | fuel + 1, cs =>
    match skipWs cs with
    | [] => none
    | 'n' :: 'u' :: 'l' :: 'l' :: rest => some (Json.null, rest)
    | 't' :: 'r' :: 'u' :: 'e' :: rest => some (Json.bool true, rest)
    | 'f' :: 'a' :: 'l' :: 's' :: 'e' :: rest => some (Json.bool false, rest)
    | '"' :: rest =>
      match parseStrBody rest with
      | some (s, r) => some (Json.str (String.mk s), r)
      | none => none
    | '[' :: rest =>
      match skipWs rest with
      | ']' :: r => some (Json.arr JsonItems.nil, r)
      | _ =>
        match parseArrItems fuel rest with
        | some (xs, r) => some (Json.arr xs, r)
        | none => none
    | '\x7b' :: rest =>
      match skipWs rest with
      | '\x7d' :: r => some (Json.obj JsonMembers.nil, r)
      | _ =>
        match parseObjItems fuel rest with
        | some (kvs, r) => some (Json.obj kvs, r)
        | none => none
    | c :: rest =>
      if c = '-' || c.isDigit then parseNum (c :: rest) else none

/-- Parse the comma-separated items of a non-empty JSON array, including the
closing bracket. -/
def parseArrItems : Nat → List Char → Option (JsonItems × List Char)
  | 0, _ => none
  | fuel + 1, cs =>
    match parseVal fuel cs with
    | none => none
    | some (v, rest) =>
      match skipWs rest with
      | ',' :: r =>
        match parseArrItems fuel r with
        | some (vs, r') => some (JsonItems.cons v vs, r')
        | none => none
      | ']' :: r => some (JsonItems.cons v JsonItems.nil, r)
      | _ => none

/-- Parse the comma-separated members of a non-empty JSON object, including
the closing brace. -/
def parseObjItems : Nat → List Char → Option (JsonMembers × List Char)
  | 0, _ => none
  | fuel + 1, cs =>
    match skipWs cs with
    | '"' :: rest =>
      match parseStrBody rest with
      | none => none
      | some (k, r1) =>
        match skipWs r1 with
        | ':' :: r2 =>
          match parseVal fuel r2 with
          | none => none
          | some (v, r3) =>
            match skipWs r3 with
            | ',' :: r4 =>
              match parseObjItems fuel r4 with
              | some (kvs, r5) => some (JsonMembers.cons (String.mk k) v kvs, r5)
              | none => none
            | '\x7d' :: r4 => some (JsonMembers.cons (String.mk k) v JsonMembers.nil, r4)
            | _ => none
        | _ => none
    | _ => none

end

/-- Model of Python `json.loads` on one line: parse a complete JSON value,
failing if nothing but whitespace may remain.  The fuel `2 * length + 4`
exceeds the number of parser steps possible on the input. -/
def jsonLoads (s : String) : Option Json :=
  match parseVal (2 * s.data.length + 4) s.data with
  | some (v, rest) => if (skipWs rest).isEmpty then some v else none
  | none => none

/-! ### Printer (model of `json.dumps(..., indent=2)`) -/

/-- A run of spaces used for indentation. -/
def spaces (n : Nat) : String :=
  String.mk (List.replicate n ' ')

/-- Escape the characters of a JSON string for output. -/
def escapeChars : List Char → List Char
  | [] => []
  | c :: cs =>
    (if c = '"' then ['\\', '"']
     else if c = '\\' then ['\\', '\\']
     else if c = '\n' then ['\\', 'n']
     else if c = '\t' then ['\\', 't']
     else if c = '\r' then ['\\', 'r']
     else [c]) ++ escapeChars cs

/-- Quote a string as a JSON string literal. -/
def quoteStr (s : String) : String :=
  "\"" ++ String.mk (escapeChars s.data) ++ "\""

mutual

/-- Render a JSON value at nesting level `lvl` with 2-space indentation,
matching Python `json.dumps(v, indent=2)` (separators `",\n"` between items
and `": "` between a key and its value, empty containers on one line). -/
def dumpVal : Nat → Json → String
  | _, Json.null => "null"
  | _, Json.bool true => "true"
  | _, Json.bool false => "false"
  | _, Json.num n => toString n
  | _, Json.str s => quoteStr s
  | _, Json.arr JsonItems.nil => "[]"
  | lvl, Json.arr (JsonItems.cons x xs) =>
    "[\n" ++ dumpItems (lvl + 1) (JsonItems.cons x xs) ++ "\n" ++ spaces (2 * lvl) ++ "]"
  | _, Json.obj JsonMembers.nil => "\x7b\x7d"
  | lvl, Json.obj (JsonMembers.cons k v kvs) =>
    "\x7b\n" ++ dumpMembers (lvl + 1) (JsonMembers.cons k v kvs) ++ "\n" ++ spaces (2 * lvl) ++ "\x7d"

/-- Render array items, one per line at the given level, separated by commas. -/
def dumpItems : Nat → JsonItems → String
  | _, JsonItems.nil => ""
  | lvl, JsonItems.cons x JsonItems.nil => spaces (2 * lvl) ++ dumpVal lvl x
  | lvl, JsonItems.cons x tl =>
    spaces (2 * lvl) ++ dumpVal lvl x ++ ",\n" ++ dumpItems lvl tl

/-- Render object members, one per line at the given level, separated by
commas, with `": "` between key and value. -/
def dumpMembers : Nat → JsonMembers → String
  | _, JsonMembers.nil => ""
  | lvl, JsonMembers.cons k v JsonMembers.nil =>
    spaces (2 * lvl) ++ quoteStr k ++ ": " ++ dumpVal lvl v
  | lvl, JsonMembers.cons k v tl =>
    spaces (2 * lvl) ++ quoteStr k ++ ": " ++ dumpVal lvl v ++ ",\n" ++ dumpMembers lvl tl

end

/-- Model of `json.dumps(v, indent=2)` as called in `batch.py` line 127. -/
def jsonDumps2 (v : Json) : String :=
  dumpVal 0 v

/-! ### Line processing (`batch.py` lines 122-128) -/

/-- One loop body of `batch.py` lines 125-128: `json.loads` the raw line and
re-serialise it with 2-space indentation; `none` models the exception raised
by `json.loads` on a malformed line. -/
def processLine (l : String) : Option String :=
  (jsonLoads l).map jsonDumps2

/-- Process the lines in order; a failing line aborts with an exception
(modelled as `none`). -/
def processLines : List String → Option (List String)
  | [] => some []
  | l :: ls =>
    match processLine l, processLines ls with
    | some s, some rest => some (s :: rest)
    | _, _ => none

/-- Model of `batch.py` lines 123-128: strip the retrieved file text, split on
newlines, and pretty-print each line as an independent JSON record. -/
def processFileText (text : String) : Option (List String) :=
  processLines (pySplitNewline (pyStrip text))

/-! ## Trace events

`time.sleep`, `print` and the SDK calls of `batch.py`'s `main` are modelled
as events in a trace; the remote service's answers are supplied by oracle
functions. -/
inductive Event where
  | sleep (seconds : Nat)
  | printLine (s : String)
  | retrieveFile (fileId : String)
  | createBatch (inputFileId : String)
  | retrieveBatch (batchId : String)
deriving DecidableEq

/-- Is an event a `client.batches.create` call? -/
def isCreateBatch : Event → Bool
  | Event.createBatch _ => true
  | _ => false

/-- Is an event a `client.batches.retrieve` call? -/
def isRetrieveBatch : Event → Bool
  | Event.retrieveBatch _ => true
  | _ => false

/-- The durations of the `time.sleep` calls in a trace, in order. -/
def sleepDurations (tr : List Event) : List Nat :=
  tr.filterMap (fun e =>
    match e with
    | Event.sleep n => some n
    | _ => none)

/-! ## The file-status polling loop (`batch.py` lines 86-100)

```
status = "pending"
while status not in ("processed"):
    print(...)
    time.sleep(30)
    file = client.files.retrieve(file_id)
    status = file.status
    print(...)
    batch_response = client.batches.create(input_file_id=file.id, ...)
    batch_id = batch_response.id
    print(batch_response.model_dump_json(indent=2))
```

`("processed")` is a parenthesised string, so the guard is the substring
test `pyStrIn`.  The oracle `fileSt i` is the status returned by the
`i`-th `files.retrieve` call, and `batchIds i` the id of the batch job the
service creates for the `i`-th `batches.create` call.  The result carries
the final status, the last-assigned `batch_id` (`none` if the loop body
never ran) and the number of iterations; `none` models fuel exhaustion
(still looping). -/
def fileLoop (fileSt : Nat → String) (batchIds : Nat → String) (fileId : String) :
    String → Option String → Nat → Nat → List Event × Option (String × Option String × Nat)
  | _, _, _, 0 => ([], none)
  | status, batchId, i, fuel + 1 =>
    if pyStrIn status "processed" then
      ([], some (status, batchId, i))
    else
      let s := fileSt i
      let b := batchIds i
      let next := fileLoop fileSt batchIds fileId s (some b) (i + 1) fuel
      (Event.printLine status :: Event.sleep 30 :: Event.retrieveFile fileId ::
         Event.printLine s :: Event.createBatch fileId :: Event.printLine b :: next.1,
       next.2)

/-- The file-status loop as entered by `main`: `status` starts as the
literal `"pending"` and `batch_id` is not yet bound. -/
def runFileLoop (fileSt : Nat → String) (batchIds : Nat → String) (fileId : String)
    (fuel : Nat) : List Event × Option (String × Option String × Nat) :=
  fileLoop fileSt batchIds fileId "pending" none 0 fuel

/-! ## The batch-status polling loop (`batch.py` lines 104-116)

```
status = "validating"
while status not in ("completed", "failed", "cancelled"):
    print(...)
    time.sleep(5)
    batch_response = client.batches.retrieve(batch_id)
    status = batch_response.status
    print(...)
    if batch_response.status == "failed":
        for error in batch_response.errors.data: print(...)
```

Here the guard is membership in a genuine three-element tuple. -/
def batchTerminal (s : String) : Bool :=
  s = "completed" || s = "failed" || s = "cancelled"

/-- The batch-status polling loop; `batchSt i` is the status returned by the
`i`-th `batches.retrieve` call.  The error enumeration on a `"failed"`
status is abstracted to a single `printLine` event. -/
def batchLoop (batchSt : Nat → String) (batchId : String) :
    String → Nat → Nat → List Event × Option (String × Nat)
  | _, _, 0 => ([], none)
  | status, i, fuel + 1 =>
    if batchTerminal status then
      ([], some (status, i))
    else
      let s := batchSt i
      let next := batchLoop batchSt batchId s (i + 1) fuel
      (Event.printLine status :: Event.sleep 5 :: Event.retrieveBatch batchId ::
         Event.printLine s ::
         ((if s = "failed" then [Event.printLine "errors"] else []) ++ next.1),
       next.2)

/-- The batch-status loop as entered by `main`: `status` starts as the
literal `"validating"`. -/
def runBatchLoop (batchSt : Nat → String) (batchId : String) (fuel : Nat) :
    List Event × Option (String × Nat) :=
  batchLoop batchSt batchId "validating" 0 fuel

/-! ## Output retrieval (`batch.py` lines 118-128) -/

/-- Python truthiness of an optional string: `None` and `""` are falsy. -/
def pyTruthy : Option String → Bool
  | none => false
  | some s => if s = "" then false else true

/-- The fields of the terminal batch response that the output-retrieval step
reads. -/
structure BatchResponse where
  output_file_id : Option String
  error_file_id : Option String

/-- `batch.py` lines 118-120: take `output_file_id`; if falsy, fall back to
`error_file_id`. -/
def chooseOutputFileId (r : BatchResponse) : Option String :=
  if pyTruthy r.output_file_id then r.output_file_id else r.error_file_id

/-- Outcome of the output-retrieval step: nothing fetched, records printed
from a fetched file, or `json.loads` raised on a fetched file's line. -/
inductive FetchResult where
  | skipped
  | printed (fileId : String) (blocks : List String)
  | parseFailed (fileId : String)
deriving DecidableEq

/-- `batch.py` lines 118-128: select a file id (output, else error); if it is
truthy, retrieve the file's content via the oracle `content` and pretty-print
its lines. -/
def fetchOutput (content : String → String) (r : BatchResponse) : FetchResult :=
  match chooseOutputFileId r with
  | none => FetchResult.skipped
  | some fid =>
    if fid = "" then FetchResult.skipped
    else
      match processFileText (content fid) with
      | some blocks => FetchResult.printed fid blocks
      | none => FetchResult.parseFailed fid

/-- The file id the output-retrieval step fetched content for, if any. -/
def fetchedFileId : FetchResult → Option String
  | FetchResult.skipped => none
  | FetchResult.printed fid _ => some fid
  | FetchResult.parseFailed fid => some fid

/-- The pretty-printed records the output-retrieval step printed. -/
def printedBlocks : FetchResult → List String
  | FetchResult.printed _ bs => bs
  | _ => []

/-! ## Process exit behaviour of `batch.py` (`configure_logging`,
`load_dotenv`, `authenticate_with_service_principal`, and the broad
`try ... except` around the batch sequence, lines 14-131) -/

/-- `configure_logging` (lines 14-27): on an exception, `sys.exit(1)`. -/
def configure_logging (ok : Bool) : Except Nat Unit :=
  if ok then Except.ok () else Except.error 1

/-- The `load_dotenv` block of `main` (lines 51-56): on an exception, logged
then `sys.exit(1)`. -/
def loadEnvStep (ok : Bool) : Except Nat Unit :=
  if ok then Except.ok () else Except.error 1

/-- `authenticate_with_service_principal` (lines 31-40): on an exception,
logged then `sys.exit(1)`. -/
def authenticate_with_service_principal (ok : Bool) : Except Nat Unit :=
  if ok then Except.ok () else Except.error 1

/-- The upload→poll→submit→poll→fetch sequence inside the broad `try`:
`raises = true` models any exception escaping from it. -/
def batchSequence (raises : Bool) : Except String Unit :=
  if raises then Except.error "Failed batch chat completion" else Except.ok ()

/-- `main` of `batch.py`: the three startup steps short-circuit with
`sys.exit(1)`; the broad handler (lines 130-131) catches any exception from
the batch sequence, logs it, and lets `main` return normally. -/
def batchMain (loggingOk configOk authOk seqRaises : Bool) : Except Nat Unit :=
  match configure_logging loggingOk with
  | Except.error c => Except.error c
  | Except.ok _ =>
    match loadEnvStep configOk with
    | Except.error c => Except.error c
    | Except.ok _ =>
      match authenticate_with_service_principal authOk with
      | Except.error c => Except.error c
      | Except.ok _ =>
        match batchSequence seqRaises with
        | Except.ok _ => Except.ok ()
        | Except.error _ => Except.ok ()

/-- The process exit code: the `sys.exit` argument, or `0` when `main`
returns normally. -/
def processExitCode (r : Except Nat Unit) : Nat :=
  match r with
  | Except.error c => c
  | Except.ok _ => 0

/-! ## The augmented chat requester (`data_sources/data_sources.py`)

The request built by `client.chat.completions.create` in `main`
(lines 73-111), field for field.  Values read with `os.getenv` are kept as
`Option String` (Python would pass `None` for an unset variable). -/

/-- The `embedding_dependency` block (lines 97-100). -/
structure EmbeddingDependency where
  type : String
  deployment_name : Option String

/-- The `authentication` block (lines 104-106). -/
structure SearchAuth where
  type : String

/-- The `parameters` block of the `azure_search` data source
(lines 92-107). -/
structure AzureSearchParameters where
  endpoint : Option String
  index_name : Option String
  in_scope : Bool
  query_type : String
  embedding_dependency : EmbeddingDependency
  semantic_configuration : Option String
  top_n_documents : Nat
  max_search_queries : Nat
  authentication : SearchAuth

/-- One entry of the `data_sources` list (lines 90-108). -/
structure DataSource where
  type : String
  parameters : AzureSearchParameters

/-- One chat message (lines 76-81). -/
structure ChatMessage where
  role : String
  content : String

/-- The chat-completion request (lines 73-111). -/
structure ChatRequest where
  model : Option String
  messages : List ChatMessage
  max_tokens : Nat
  data_sources : List DataSource

/-- The request `data_sources.py` builds, translated field for field from
lines 73-111. -/
def buildChatRequest (env : String → Option String) : ChatRequest :=
  { model := env "LLM_DEPLOYMENT_NAME"
    messages := [{ role := "system", content := "You are helpful assistant." },
                 { role := "user", content := "What was Microsoft's income?" }]
    max_tokens := 100
    data_sources := [
      { type := "azure_search"
        parameters := {
          endpoint := env "AZURE_AI_SEARCH_ENDPOINT"
          index_name := env "AZURE_AI_SEARCH_INDEX_NAME"
          in_scope := true
          query_type := "vector_semantic_hybrid"
          embedding_dependency := { type := "deployment_name"
                                    deployment_name := env "EMBEDDING_DEPLOYMENT_NAME" }
          semantic_configuration := env "AZURE_AI_SEARCH_SEMANTIC_CONFIG_NAME"
          top_n_documents := 3
          max_search_queries := 3
          authentication := { type := "system_assigned_managed_identity" } } } ] }

/-- One choice of a chat response; only `message.content` is read. -/
structure Choice where
  message_content : String

/-- A chat response: a list of choices. -/
structure ChatResponse where
  choices : List Choice

/-- Events of the requester: sending the request, and printing to stdout. -/
inductive DSEvent where
  | send (req : ChatRequest)
  | printOut (s : String)

/-- Is an event a `chat.completions.create` call? -/
def isSendEvent : DSEvent → Bool
  | DSEvent.send _ => true
  | _ => false

/-- The strings printed to stdout, in order. -/
def printedOutputs (tr : List DSEvent) : List String :=
  tr.filterMap (fun e =>
    match e with
    | DSEvent.printOut s => some s
    | _ => none)

/-- The try-block of `main` in `data_sources.py` (lines 64-112): build the
request, send it once, print `response.choices[0].message.content`.  An
empty `choices` list makes the subscript raise (caught by the broad
handler), so nothing is printed in that case. -/
def dataSourcesMain (env : String → Option String)
    (respond : ChatRequest → ChatResponse) : List DSEvent :=
  let req := buildChatRequest env
  match (respond req).choices with
  | c :: _ => [DSEvent.send req, DSEvent.printOut c.message_content]
  | [] => [DSEvent.send req]

/-! ## Theorems -/

/-- C1: the claim says `batches.create` is called exactly once, and only on a
poll that observed status `"processed"`.  The code calls `batches.create`
inside the polling loop on every iteration: for the status sequence
`"pending", "processed"` the loop performs two iterations and the trace
contains two `createBatch` events, the first of them in the iteration that
observed `"pending"` (the first six events shown below). -/
theorem fileLoop_submits_every_iteration :
    (runFileLoop (fun i => if i = 0 then "pending" else "processed")
        (fun i => if i = 0 then "batch-0" else "batch-1") "file-1" 5).2 =
      some ("processed", some "batch-1", 2) ∧
    List.countP isCreateBatch
        (runFileLoop (fun i => if i = 0 then "pending" else "processed")
          (fun i => if i = 0 then "batch-0" else "batch-1") "file-1" 5).1 = 2 ∧
    (runFileLoop (fun i => if i = 0 then "pending" else "processed")
        (fun i => if i = 0 then "batch-0" else "batch-1") "file-1" 5).1.take 6 =
      [Event.printLine "pending", Event.sleep 30, Event.retrieveFile "file-1",
       Event.printLine "pending", Event.createBatch "file-1", Event.printLine "batch-0"] :=
  ⟨rfl, rfl, rfl⟩

/-- C2: the claim says the file-status loop exits after observing `s` iff
`s = "processed"`.  Because line 87 reads `status not in ("processed")` — a
substring test on a parenthesised string, not tuple membership — the loop
also exits on the status `"process"`, a proper substring of `"processed"`:
with every poll answering `"process"` the loop stops after one iteration. -/
theorem fileLoop_exit_is_substring_test :
    (runFileLoop (fun _ => "process") (fun _ => "batch-0") "file-1" 3).2 =
      some ("process", some "batch-0", 1) ∧
    pyStrIn "process" "processed" = true ∧
    "process" ≠ "processed" :=
  ⟨rfl, rfl, by decide⟩

/-- C4: the process exits with code 1 exactly when logging setup,
configuration load or authentication fails; an exception escaping the
upload→poll→submit→poll→fetch sequence is caught by the broad handler and
`main` returns normally, giving exit code 0. -/
theorem batch_exit_codes : ∀ loggingOk configOk authOk seqRaises : Bool,
    (processExitCode (batchMain loggingOk configOk authOk seqRaises) = 1 ↔
      (loggingOk = false ∨ configOk = false ∨ authOk = false)) ∧
    processExitCode (batchMain true true true seqRaises) = 0 := by
  decide

/-- C10: when the terminal batch response carries neither an output-file id
nor an error-file id (including the Python-falsy empty string), the
output-retrieval step fetches no file content and prints no records, and
returns normally rather than raising. -/
theorem fetchOutput_skips_without_ids (content : String → String) :
    fetchOutput content { output_file_id := none, error_file_id := none } =
      FetchResult.skipped ∧
    fetchOutput content { output_file_id := some "", error_file_id := some "" } =
      FetchResult.skipped ∧
    fetchedFileId (fetchOutput content { output_file_id := none, error_file_id := none }) =
      none ∧
    printedBlocks (fetchOutput content { output_file_id := none, error_file_id := none }) =
      [] :=
  ⟨rfl, rfl, rfl, rfl⟩

/-- If the id selection yields a truthy file id, that is the file whose
content is fetched. -/
theorem fetchedFileId_of_choose (content : String → String) (r : BatchResponse)
    (fid : String) (h : chooseOutputFileId r = some fid) (hfid : fid ≠ "") :
    fetchedFileId (fetchOutput content r) = some fid := by
  unfold fetchOutput
  rw [h]
  cases hp : processFileText (content fid) <;> simp [fetchedFileId, hfid, hp]

/-- If the id selection yields a truthy file id, the printed records are the
pretty-printed lines of that file's content. -/
theorem printedBlocks_of_choose (content : String → String) (r : BatchResponse)
    (fid : String) (h : chooseOutputFileId r = some fid) (hfid : fid ≠ "") :
    printedBlocks (fetchOutput content r) = (processFileText (content fid)).getD [] := by
  unfold fetchOutput
  rw [h]
  cases hp : processFileText (content fid) <;> simp [printedBlocks, hfid, hp]

/-- C5: the output-retrieval step fetches the output file when its id is
truthy, regardless of the error-file id; and for a batch result carrying
only an error-file id, the content retrieved and printed comes from the
error file. -/
theorem fetchOutput_prefers_output_else_error (content : String → String) (o e : String)
    (ho : o ≠ "") (he : e ≠ "") :
    fetchedFileId (fetchOutput content { output_file_id := some o, error_file_id := some e }) =
      some o ∧
    fetchedFileId (fetchOutput content { output_file_id := some o, error_file_id := none }) =
      some o ∧
    fetchedFileId (fetchOutput content { output_file_id := none, error_file_id := some e }) =
      some e ∧
    printedBlocks (fetchOutput content { output_file_id := none, error_file_id := some e }) =
      (processFileText (content e)).getD [] := by
  have c1 : chooseOutputFileId { output_file_id := some o, error_file_id := some e } = some o := by
    simp [chooseOutputFileId, pyTruthy, ho]
  have c2 : chooseOutputFileId { output_file_id := some o, error_file_id := none } = some o := by
    simp [chooseOutputFileId, pyTruthy, ho]
  have c3 : chooseOutputFileId { output_file_id := none, error_file_id := some e } = some e := by
    simp [chooseOutputFileId, pyTruthy]
  exact ⟨fetchedFileId_of_choose content _ o c1 ho,
         fetchedFileId_of_choose content _ o c2 ho,
         fetchedFileId_of_choose content _ e c3 he,
         printedBlocks_of_choose content _ e c3 he⟩

/-- Witness for C5 at a concrete error-only batch response whose error file
holds one JSON record. -/
theorem fetchOutput_prefers_output_else_error_witness :
    fetchedFileId (fetchOutput (fun _ => "\x7b\"a\":1\x7d")
        { output_file_id := some "out-1", error_file_id := some "err-1" }) = some "out-1" ∧
    fetchedFileId (fetchOutput (fun _ => "\x7b\"a\":1\x7d")
        { output_file_id := some "out-1", error_file_id := none }) = some "out-1" ∧
    fetchedFileId (fetchOutput (fun _ => "\x7b\"a\":1\x7d")
        { output_file_id := none, error_file_id := some "err-1" }) = some "err-1" ∧
    printedBlocks (fetchOutput (fun _ => "\x7b\"a\":1\x7d")
        { output_file_id := none, error_file_id := some "err-1" }) =
      (processFileText ((fun _ : String => "\x7b\"a\":1\x7d") "err-1")).getD [] :=
  fetchOutput_prefers_output_else_error (fun _ => "\x7b\"a\":1\x7d") "out-1" "err-1"
    (by decide) (by decide)

/-- C7: the request of `data_sources.py` carries exactly one retrieval data
source, with hybrid vector+semantic query mode, a document limit of 3 and at
most 3 search queries; the request is sent exactly once and only the first
choice's message content is printed. -/
theorem dataSources_request_shape_and_single_send
    (env : String → Option String) (respond : ChatRequest → ChatResponse) :
    (buildChatRequest env).data_sources.length = 1 ∧
    (buildChatRequest env).data_sources.map (fun ds => ds.parameters.query_type) =
      ["vector_semantic_hybrid"] ∧
    (buildChatRequest env).data_sources.map (fun ds => ds.parameters.top_n_documents) = [3] ∧
    (buildChatRequest env).data_sources.map (fun ds => ds.parameters.max_search_queries) = [3] ∧
    List.countP isSendEvent (dataSourcesMain env respond) = 1 ∧
    printedOutputs (dataSourcesMain env respond) =
      ((respond (buildChatRequest env)).choices.head?.map Choice.message_content).toList := by
  refine ⟨rfl, rfl, rfl, rfl, ?_, ?_⟩ <;>
  · unfold dataSourcesMain
    cases h : (respond (buildChatRequest env)).choices <;>
      simp [h, isSendEvent, printedOutputs, List.countP_cons]

/-- The error-enumeration events of a `"failed"` poll contribute no
`batches.retrieve` events. -/
theorem countP_retrieve_if_errors (s : String) (l : List Event) :
    List.countP isRetrieveBatch
        ((if s = "failed" then [Event.printLine "errors"] else []) ++ l) =
      List.countP isRetrieveBatch l := by
  by_cases hfail : s = "failed" <;>
    simp [hfail, isRetrieveBatch, List.countP_cons, List.countP_append]

/-- The error-enumeration events of a `"failed"` poll contribute no sleeps. -/
theorem sleepDurations_if_errors (s : String) (l : List Event) :
    sleepDurations ((if s = "failed" then [Event.printLine "errors"] else []) ++ l) =
      sleepDurations l := by
  by_cases hfail : s = "failed" <;> simp [hfail, sleepDurations]

/-- A sleep event records its duration. -/
theorem sleepDurations_cons_sleep (n : Nat) (l : List Event) :
    sleepDurations (Event.sleep n :: l) = n :: sleepDurations l := by
  simp [sleepDurations]

/-- Printing contributes no sleeps. -/
theorem sleepDurations_cons_print (s : String) (l : List Event) :
    sleepDurations (Event.printLine s :: l) = sleepDurations l := by
  simp [sleepDurations]

/-- A file retrieve contributes no sleeps. -/
theorem sleepDurations_cons_retrieveFile (s : String) (l : List Event) :
    sleepDurations (Event.retrieveFile s :: l) = sleepDurations l := by
  simp [sleepDurations]

/-- A batch create contributes no sleeps. -/
theorem sleepDurations_cons_createBatch (s : String) (l : List Event) :
    sleepDurations (Event.createBatch s :: l) = sleepDurations l := by
  simp [sleepDurations]

/-- A batch retrieve contributes no sleeps. -/
theorem sleepDurations_cons_retrieveBatch (s : String) (l : List Event) :
    sleepDurations (Event.retrieveBatch s :: l) = sleepDurations l := by
  simp [sleepDurations]

/-- Auxiliary invariant for the batch-status loop: starting on a
non-terminal status, if the `k`-th retrieve (0-based) is the first to answer
a terminal status and fuel suffices, the loop exits with that status after
exactly `k + 1` retrieve calls. -/
theorem batchLoop_first_terminal_aux (batchSt : Nat → String) (batchId : String) :
    ∀ (k i fuel : Nat) (status : String),
      batchTerminal status = false →
      (∀ j, j < k → batchTerminal (batchSt (i + j)) = false) →
      batchTerminal (batchSt (i + k)) = true →
      k + 2 ≤ fuel →
      (batchLoop batchSt batchId status i fuel).2 = some (batchSt (i + k), i + k + 1) ∧
      List.countP isRetrieveBatch (batchLoop batchSt batchId status i fuel).1 = k + 1 := by
  intro k
  induction k with
  | zero =>
    intro i fuel status hstatus _ hk hfuel
    obtain ⟨f, rfl⟩ : ∃ f, fuel = f + 2 := ⟨fuel - 2, by omega⟩
    simp only [Nat.add_zero] at hk
    constructor
    · simp [batchLoop, hstatus, hk]
    · simp [batchLoop, hstatus, hk, countP_retrieve_if_errors, isRetrieveBatch,
        List.countP_cons]
  | succ k ih =>
    intro i fuel status hstatus hmin hk hfuel
    obtain ⟨f, rfl⟩ : ∃ f, fuel = f + 1 := ⟨fuel - 1, by omega⟩
    have h0 : batchTerminal (batchSt i) = false := by
      have := hmin 0 (Nat.succ_pos k)
      simpa using this
    have harith : i + 1 + k = i + (k + 1) := by omega
    have ih' := ih (i + 1) f (batchSt i) h0
      (fun j hj => by
        have := hmin (j + 1) (by omega)
        have e : i + (j + 1) = i + 1 + j := by omega
        rwa [e] at this)
      (by rwa [harith])
      (by omega)
    constructor
    · have e2 : (batchLoop batchSt batchId status i (f + 1)).2 =
          (batchLoop batchSt batchId (batchSt i) (i + 1) f).2 := by
        simp [batchLoop, hstatus]
      rw [e2, ih'.1, harith]
    · have e1 : (batchLoop batchSt batchId status i (f + 1)).1 =
          Event.printLine status :: Event.sleep 5 :: Event.retrieveBatch batchId ::
          Event.printLine (batchSt i) ::
          ((if batchSt i = "failed" then [Event.printLine "errors"] else []) ++
            (batchLoop batchSt batchId (batchSt i) (i + 1) f).1) := by
        simp [batchLoop, hstatus]
      rw [e1]
      simp [countP_retrieve_if_errors, isRetrieveBatch, List.countP_cons, ih'.2]

/-- C3: for every status sequence, once a retrieve call first answers a
status in `{completed, failed, cancelled}` the batch-status loop exits with
that status and performs no further retrieve call: given enough fuel, the
number of `batches.retrieve` events is exactly the index of the first
terminal answer plus one. -/
theorem batchLoop_stops_at_first_terminal (batchSt : Nat → String) (batchId : String)
    (k fuel : Nat)
    (hmin : ∀ j, j < k → batchTerminal (batchSt j) = false)
    (hk : batchTerminal (batchSt k) = true)
    (hfuel : k + 2 ≤ fuel) :
    (runBatchLoop batchSt batchId fuel).2 = some (batchSt k, k + 1) ∧
    List.countP isRetrieveBatch (runBatchLoop batchSt batchId fuel).1 = k + 1 := by
  have h := batchLoop_first_terminal_aux batchSt batchId k 0 fuel "validating" (by decide)
    (fun j hj => by simpa using hmin j hj) (by simpa using hk) hfuel
  simpa [runBatchLoop] using h

/-- Witness for C3: a job that reports `"failed"` on the very first poll is
polled exactly once — the loop does not keep polling a terminal job. -/
theorem batchLoop_stops_at_first_terminal_witness :
    (runBatchLoop (fun _ => "failed") "batch-1" 2).2 = some ("failed", 1) ∧
    List.countP isRetrieveBatch (runBatchLoop (fun _ => "failed") "batch-1" 2).1 = 1 :=
  batchLoop_stops_at_first_terminal (fun _ => "failed") "batch-1" 0 2
    (fun j hj => absurd hj (Nat.not_lt_zero j)) rfl (by decide)

/-- The file-status loop never exits while every poll answers a status that
is not a substring of `"processed"`, and it sleeps 30 seconds on every
iteration. -/
theorem fileLoop_no_exit_aux (fileSt : Nat → String) (batchIds : Nat → String)
    (fileId : String) (hf : ∀ n, pyStrIn (fileSt n) "processed" = false) :
    ∀ (fuel : Nat) (status : String) (batchId : Option String) (i : Nat),
      pyStrIn status "processed" = false →
      (fileLoop fileSt batchIds fileId status batchId i fuel).2 = none ∧
      sleepDurations (fileLoop fileSt batchIds fileId status batchId i fuel).1 =
        List.replicate fuel 30 := by
  intro fuel
  induction fuel with
  | zero => exact fun status batchId i _ => ⟨rfl, rfl⟩
  | succ f ih =>
    intro status batchId i h
    obtain ⟨ih1, ih2⟩ := ih (fileSt i) (some (batchIds i)) (i + 1) (hf i)
    constructor
    · simp [fileLoop, h, ih1]
    · simp [fileLoop, h, sleepDurations_cons_sleep, sleepDurations_cons_print,
        sleepDurations_cons_retrieveFile, sleepDurations_cons_createBatch,
        ih2, List.replicate_succ]

/-- The batch-status loop never exits while every poll answers a
non-terminal status, and it sleeps 5 seconds on every iteration. -/
theorem batchLoop_no_exit_aux (batchSt : Nat → String) (batchId : String)
    (hb : ∀ n, batchTerminal (batchSt n) = false) :
    ∀ (fuel : Nat) (status : String) (i : Nat),
      batchTerminal status = false →
      (batchLoop batchSt batchId status i fuel).2 = none ∧
      sleepDurations (batchLoop batchSt batchId status i fuel).1 =
        List.replicate fuel 5 := by
  intro fuel
  induction fuel with
  | zero => exact fun status i _ => ⟨rfl, rfl⟩
  | succ f ih =>
    intro status i h
    obtain ⟨ih1, ih2⟩ := ih (batchSt i) (i + 1) (hb i)
    constructor
    · simp [batchLoop, h, ih1]
    · have e1 : (batchLoop batchSt batchId status i (f + 1)).1 =
          Event.printLine status :: Event.sleep 5 :: Event.retrieveBatch batchId ::
          Event.printLine (batchSt i) ::
          ((if batchSt i = "failed" then [Event.printLine "errors"] else []) ++
            (batchLoop batchSt batchId (batchSt i) (i + 1) f).1) := by
        simp [batchLoop, h]
      rw [e1]
      simp [sleepDurations_cons_sleep, sleepDurations_cons_print,
        sleepDurations_cons_retrieveBatch, sleepDurations_if_errors, ih2,
        List.replicate_succ]

/-- C8: neither polling loop has a retry cap or timeout: if the remote
service never reports a terminal status, both loops are still running after
any number of iterations (`none` result for every fuel), having slept a
fixed 30 seconds per file-status poll and 5 seconds per batch-status
poll. -/
theorem polling_has_no_timeout (fileSt batchSt : Nat → String) (batchIds : Nat → String)
    (fileId batchId : String)
    (hf : ∀ n, pyStrIn (fileSt n) "processed" = false)
    (hb : ∀ n, batchTerminal (batchSt n) = false) (fuel : Nat) :
    (runFileLoop fileSt batchIds fileId fuel).2 = none ∧
    sleepDurations (runFileLoop fileSt batchIds fileId fuel).1 = List.replicate fuel 30 ∧
    (runBatchLoop batchSt batchId fuel).2 = none ∧
    sleepDurations (runBatchLoop batchSt batchId fuel).1 = List.replicate fuel 5 := by
  have h1 := fileLoop_no_exit_aux fileSt batchIds fileId hf fuel "pending" none 0 (by decide)
  have h2 := batchLoop_no_exit_aux batchSt batchId hb fuel "validating" 0 (by decide)
  exact ⟨h1.1, h1.2, h2.1, h2.2⟩

/-- Witness for C8: a file stuck on `"pending"` and a job stuck on
`"in_progress"` keep both loops running through two full iterations. -/
theorem polling_has_no_timeout_witness :
    (runFileLoop (fun _ => "pending") (fun _ => "batch-0") "file-1" 2).2 = none ∧
    sleepDurations (runFileLoop (fun _ => "pending") (fun _ => "batch-0") "file-1" 2).1 =
      List.replicate 2 30 ∧
    (runBatchLoop (fun _ => "in_progress") "batch-0" 2).2 = none ∧
    sleepDurations (runBatchLoop (fun _ => "in_progress") "batch-0" 2).1 =
      List.replicate 2 5 :=
  polling_has_no_timeout (fun _ => "pending") (fun _ => "in_progress") (fun _ => "batch-0")
    "file-1" "batch-0" (fun _ => rfl) (fun _ => rfl) 2

/-- Invariant of the file-status loop: when it exits, either it exited at
entry (possible only if the entry status already passes the guard), or it
ran at least one iteration, in which case `batch_id` was assigned; in
either case the number of `batches.create` events in the trace plus the
entry iteration index equals the reported iteration count. -/
theorem fileLoop_result_invariant (fileSt : Nat → String) (batchIds : Nat → String)
    (fileId : String) :
    ∀ (fuel : Nat) (status : String) (batchId : Option String) (i : Nat)
      (st : String) (bid : Option String) (n : Nat),
      (fileLoop fileSt batchIds fileId status batchId i fuel).2 = some (st, bid, n) →
      List.countP isCreateBatch (fileLoop fileSt batchIds fileId status batchId i fuel).1 + i
          = n ∧
      ((pyStrIn status "processed" = true ∧ st = status ∧ bid = batchId ∧ n = i) ∨
        (i + 1 ≤ n ∧ bid.isSome = true)) := by
  intro fuel
  induction fuel with
  | zero =>
    intro status batchId i st bid n h
    simp [fileLoop] at h
  | succ f ih =>
    intro status batchId i st bid n h
    by_cases hs : pyStrIn status "processed" = true
    · have heq : fileLoop fileSt batchIds fileId status batchId i (f + 1) =
          ([], some (status, batchId, i)) := by simp [fileLoop, hs]
      rw [heq] at h
      have h' : status = st ∧ batchId = bid ∧ i = n := by simpa using h
      obtain ⟨h1, h2, h3⟩ := h'
      subst h1
      subst h2
      subst h3
      rw [heq]
      exact ⟨by simp, Or.inl ⟨hs, rfl, rfl, rfl⟩⟩
    · have hs' : pyStrIn status "processed" = false := by
        cases hp : pyStrIn status "processed" with
        | false => rfl
        | true => exact absurd hp hs
      have e1 : (fileLoop fileSt batchIds fileId status batchId i (f + 1)).1 =
          Event.printLine status :: Event.sleep 30 :: Event.retrieveFile fileId ::
          Event.printLine (fileSt i) :: Event.createBatch fileId ::
          Event.printLine (batchIds i) ::
          (fileLoop fileSt batchIds fileId (fileSt i) (some (batchIds i)) (i + 1) f).1 := by
        simp [fileLoop, hs']
      have e2 : (fileLoop fileSt batchIds fileId status batchId i (f + 1)).2 =
          (fileLoop fileSt batchIds fileId (fileSt i) (some (batchIds i)) (i + 1) f).2 := by
        simp [fileLoop, hs']
      rw [e2] at h
      obtain ⟨ihA, ihBC⟩ := ih (fileSt i) (some (batchIds i)) (i + 1) st bid n h
      constructor
      · rw [e1]
        simp [List.countP_cons, isCreateBatch]
        omega
      · right
        rcases ihBC with ⟨_, _, hbid, hn⟩ | ⟨hn, hbid⟩
        · subst hn
          rw [hbid]
          exact ⟨by omega, rfl⟩
        · exact ⟨by omega, hbid⟩

/-- C9: whenever the file-status loop exits, it has run at least one
iteration (the loop variable starts as `"pending"`, which fails the guard),
so at least one batch job was submitted and the `batch_id` used by the
batch-status loop is defined. -/
theorem fileLoop_always_iterates (fileSt : Nat → String) (batchIds : Nat → String)
    (fileId : String) (fuel : Nat) (st : String) (bid : Option String) (n : Nat)
    (h : (runFileLoop fileSt batchIds fileId fuel).2 = some (st, bid, n)) :
    1 ≤ n ∧ bid.isSome = true ∧
    1 ≤ List.countP isCreateBatch (runFileLoop fileSt batchIds fileId fuel).1 := by
  simp only [runFileLoop] at h ⊢
  obtain ⟨hA, hBC⟩ :=
    fileLoop_result_invariant fileSt batchIds fileId fuel "pending" none 0 st bid n h
  rcases hBC with ⟨hex, -, -, -⟩ | ⟨hn, hbid⟩
  · exact absurd hex (by decide)
  · exact ⟨by omega, hbid, by omega⟩

/-- Witness for C9: with a file processed on the first poll, the loop exits
after one iteration with one submitted batch and a defined `batch_id`. -/
theorem fileLoop_always_iterates_witness :
    1 ≤ 1 ∧ (some "batch-0").isSome = true ∧
    1 ≤ List.countP isCreateBatch
        (runFileLoop (fun _ => "processed") (fun _ => "batch-0") "file-1" 3).1 :=
  fileLoop_always_iterates (fun _ => "processed") (fun _ => "batch-0") "file-1" 3
    "processed" (some "batch-0") 1 rfl

/-- If every line parses as a JSON value, processing the lines yields
exactly the pretty-printed values, in the same order. -/
theorem processLines_of_parses :
    ∀ (ls : List String) (vs : List Json),
      ls.map jsonLoads = vs.map Option.some →
      processLines ls = some (vs.map jsonDumps2) := by
  intro ls
  induction ls with
  | nil =>
    intro vs h
    have hvs : vs = [] := by
      cases vs with
      | nil => rfl
      | cons v vs' => simp at h
    subst hvs
    rfl
  | cons l ls ih =>
    intro vs h
    cases vs with
    | nil => simp at h
    | cons v vs' =>
      simp only [List.map_cons] at h
      injection h with h1 h2
      have hrest := ih vs' h2
      simp [processLines, processLine, h1, hrest]

/-- C6: for a retrieved result file whose stripped text splits into lines
that each parse as a JSON record, the driver prints one pretty-printed
block (2-space indentation, via `jsonDumps2`) per line, in the order the
lines appear. -/
theorem processFileText_pretty_prints_in_order (text : String) (vs : List Json)
    (h : (pySplitNewline (pyStrip text)).map jsonLoads = vs.map Option.some) :
    processFileText text = some (vs.map jsonDumps2) := by
  unfold processFileText
  exact processLines_of_parses _ vs h

/-- Witness for C6: the two-line file from the specification,
pretty-printed as two independent blocks in original order. -/
theorem processFileText_pretty_prints_in_order_witness :
    processFileText "\x7b\"a\":1\x7d\n\x7b\"b\":2\x7d" =
      some ["\x7b\n  \"a\": 1\n\x7d", "\x7b\n  \"b\": 2\n\x7d"] :=
  processFileText_pretty_prints_in_order "\x7b\"a\":1\x7d\n\x7b\"b\":2\x7d"
    [Json.obj (JsonMembers.cons "a" (Json.num 1) JsonMembers.nil),
     Json.obj (JsonMembers.cons "b" (Json.num 2) JsonMembers.nil)] rfl

/-- A file-status source constantly answering `"process"` never reports
`"processed"`, yet the file-status loop terminates after a single poll (one
30-second sleep), because the line-87 guard is a substring test: "never
reports `\"processed\"`" alone does not keep the loop running. -/
theorem fileLoop_stops_for_process_status :
    "process" ≠ "processed" ∧
    (runFileLoop (fun _ => "process") (fun _ => "batch-1") "file-1" 3).2 =
      some ("process", some "batch-1", 1) ∧
    sleepDurations (runFileLoop (fun _ => "process") (fun _ => "batch-1") "file-1" 3).1 =
      [30] :=
  ⟨by decide, rfl, rfl⟩
